import Mathlib

/-!
Shallow embedding of the django-userena account-lifecycle views
(src/userena/views/*.py) together with the store-manager operations they
call.  View control flow is translated from the source; manager methods
(`check_expired_activation`, `activate_user`, `confirm_email`,
`reissue_activation`, form save helpers) and the guardian permission
decorator are repository or collaborator code that is not shipped under
src/, so those are modelled from the spec and marked as such in their
doc comments.  Machine state (users, activation records, pending email
changes, the session, emitted signals) is threaded explicitly through a
`World` record; each view returns a `Response` and the updated world.
-/

namespace Userena

/-- A user row: unique username (case-insensitive), unique email, active
flag and an opaque credential hash. -/
structure User where
  username : String
  email : String
  active : Bool
  credential : String
  deriving Repr, DecidableEq

/-- An activation record linking a user to an activation token and its
issue timestamp (`UserenaSignup` row, activation part). -/
structure ActivationRecord where
  username : String
  token : String
  issuedAt : Nat
  deriving Repr, DecidableEq

/-- A pending email change: confirmation token plus the proposed new
address (`UserenaSignup` row, email-confirmation part). -/
structure PendingEmailChange where
  username : String
  token : String
  proposedEmail : String
  deriving Repr, DecidableEq

/-- The profile companion record; its mutable attributes are kept
abstract as key/value pairs. -/
structure Profile where
  username : String
  attrs : List (String × String)
  deriving Repr, DecidableEq

/-- The persistent store: all account-related rows. -/
structure Store where
  users : List User
  activations : List ActivationRecord
  pendings : List PendingEmailChange
  profiles : List Profile
  deriving Repr, DecidableEq

/-- The configuration surface read by the views (userena settings). -/
structure Config where
  activationRetry : Bool
  activationWindow : Nat
  useMessages : Bool
  rememberMeDays : Nat
  disableSignup : Bool
  signinAfterSignup : Bool
  activationRequired : Bool
  deriving Repr, DecidableEq

/-- Signals sent through the userena signal registry. -/
inductive Event where
  | signupComplete (username : String)
  | activated (username : String)
  | emailChanged (username prevEmail newEmail : String)
  | passwordChanged (username : String)
  | profileChanged (username : String)
  | signedIn (username : String)
  | signedOut (username : String)
  deriving Repr, DecidableEq

/-- A call into the authentication backend.  `byEmailNoPassword` records
an `authenticate(identification=email, check_password=False)` call. -/
inductive AuthCall where
  | byEmailNoPassword (email : String)
  deriving Repr, DecidableEq

/-- The whole machine state a request sees: the store, the signals sent
so far, the session (logged-in username and its `set_expiry` value), the
authentication calls made, the current time, and the next token the
token issuer would mint. -/
structure World where
  store : Store
  events : List Event
  session : Option String
  sessionExpiry : Option Nat
  authCalls : List AuthCall
  now : Nat
  freshToken : String
  deriving Repr, DecidableEq

/-- Redirect targets, mirroring the named URLs passed to `reverse` plus
caller-supplied `success_url` strings. -/
inductive Url where
  | profileDetail (username : String)
  | disabled (username : String)
  | activateView (token : String)
  | emailConfirmComplete (username : String)
  | emailChangeComplete (username : String)
  | passwordChangeComplete (username : String)
  | signupCompleteView (username : String)
  | signinRedirect (next : Option String) (username : String)
  | custom (s : String)
  deriving Repr, DecidableEq

/-- The tagged result a view hands back to the transport layer. -/
inductive Response where
  | redirect (url : Url)
  | render (template : String) (context : List (String × String))
  | forbidden
  | notFound
  deriving Repr, DecidableEq

/-- Case-insensitive username comparison (`username__iexact`),
character by character. -/
def unameEq (a b : String) : Bool :=
  a.data.map Char.toLower == b.data.map Char.toLower

/-- Look up an activation record by its token (natural key). -/
def findActivation (s : Store) (key : String) : Option ActivationRecord :=
  s.activations.find? (fun r => r.token == key)

/-- Look up a pending email change by its confirmation token. -/
def findPending (s : Store) (key : String) : Option PendingEmailChange :=
  s.pendings.find? (fun p => p.token == key)

/-- Look up a user by exact username (foreign-key dereference). -/
def findUserExact (s : Store) (uname : String) : Option User :=
  s.users.find? (fun u => u.username == uname)

/-- Look up a user by username, case-insensitively (URL-level
`get_object_or_404(..., username__iexact=...)`). -/
def findUserByName (s : Store) (uname : String) : Option User :=
  s.users.find? (fun u => unameEq u.username uname)

/-- Persist a changed user row, keyed by its username. -/
def saveUser (l : List User) (u : User) : List User :=
  l.map (fun v => if v.username == u.username then u else v)

/-- Pure expiry check: `now - issued_at > window`. -/
def isExpired (cfg : Config) (now issuedAt : Nat) : Bool :=
  decide (cfg.activationWindow < now - issuedAt)

/-- Modelled from the spec: the manager method
`UserenaSignup.objects.check_expired_activation` (not shipped under
src/).  It looks the activation record up by token — absence raises
`DoesNotExist`, modelled as `none` — and otherwise reports whether the
token is older than the activation window. -/
def check_expired_activation (cfg : Config) (w : World) (key : String) :
    Option Bool :=
  (findActivation w.store key).map (fun r => isExpired cfg w.now r.issuedAt)

/-- Modelled from the spec: the manager method
`UserenaSignup.objects.activate_user` (not shipped under src/).  Per the
spec's Activate step: set `User.active = true`, clear the
`ActivationRecord`, emit `Activated`, return the user; `none` when no
record (or no linked user) matches. -/
def activate_user (w : World) (key : String) : Option User × World :=
  match findActivation w.store key with
  | none => (none, w)
  | some r =>
    match findUserExact w.store r.username with
    | none => (none, w)
    | some u =>
      let u2 : User := { u with active := true }
      (some u2,
        { w with
          store := { w.store with
            users := saveUser w.store.users u2,
            activations :=
              w.store.activations.filter (fun a => !(a.token == key)) },
          events := w.events ++ [Event.activated u.username] })

/-- Modelled from the spec: the authentication backend invoked as
`authenticate(identification=email, check_password=False)` (the external
identity primitive); with the password check bypassed it resolves the
user by email. -/
def authenticate_by_email (s : Store) (email : String) : Option User :=
  s.users.find? (fun u => u.email == email)

/-- `authenticate(identification=email, check_password=False)` followed
by `login(request, auth_user)`: records the backend call and, when a
user is found, binds the session to that user. -/
def loginByEmail (w : World) (email : String) : World :=
  let w1 :=
    { w with authCalls := w.authCalls ++ [AuthCall.byEmailNoPassword email] }
  match authenticate_by_email w1.store email with
  | some au => { w1 with session := some au.username }
  | none => w1

/-- `success_url % {'username': ...}` string interpolation. -/
def substUsername (s username : String) : String :=
  s.replace "%(username)s" username

/-- The `activate` view (views.py).  When the key is unexpired — or
`USERENA_ACTIVATION_RETRY` is disabled — the user is activated and
signed in, then redirected; an expired key with retry enabled renders
the retry template; an unknown key renders the fail template. -/
def activate (cfg : Config) (w : World) (key : String)
    (successUrl : Option String) : Response × World :=
  match check_expired_activation cfg w key with
  | none => (Response.render "userena/activate_fail.html" [], w)
  | some expired =>
    if !expired || !cfg.activationRetry then
      match activate_user w key with
      | (some u, w1) =>
        let w2 := loginByEmail w1 u.email
        let url : Url :=
          match successUrl with
          | some s => Url.custom (substUsername s u.username)
          | none => Url.profileDetail u.username
        (Response.redirect url, w2)
      | (none, w1) => (Response.render "userena/activate_fail.html" [], w1)
    else
      (Response.render "userena/activate_retry.html"
        [("activation_key", key)], w)

/-- Modelled from the spec: the manager method
`UserenaSignup.objects.reissue_activation` (not shipped under src/).
Looks the record up by the old token; if it is indeed expired, mints a
fresh token and replaces the record's token and issue timestamp, else
fails. -/
def reissue_activation (cfg : Config) (w : World) (key : String) :
    Option String × World :=
  match findActivation w.store key with
  | none => (none, w)
  | some r =>
    if isExpired cfg w.now r.issuedAt then
      (some w.freshToken,
        { w with
          store := { w.store with
            activations := w.store.activations.map
              (fun a =>
                if a.token == key then
                  { a with token := w.freshToken, issuedAt := w.now }
                else a) } })
    else (none, w)

/-- The `activate_retry` view (views.py): with retry disabled it
immediately redirects to the `activate` view; otherwise it reissues the
key when the record exists and is expired, and falls back to the
`activate` redirect on every other path. -/
def activate_retry (cfg : Config) (w : World) (key : String) :
    Response × World :=
  if !cfg.activationRetry then
    (Response.redirect (Url.activateView key), w)
  else
    match check_expired_activation cfg w key with
    | none => (Response.redirect (Url.activateView key), w)
    | some expired =>
      if expired then
        match reissue_activation cfg w key with
        | (some _, w1) =>
          (Response.render "userena/activate_retry_success.html" [], w1)
        | (none, w1) => (Response.redirect (Url.activateView key), w1)
      else (Response.redirect (Url.activateView key), w)

/-- Modelled from the spec: the manager method
`UserenaSignup.objects.confirm_email` (not shipped under src/).  Per the
spec's ConfirmEmailChange step: atomically set `User.email` to the
proposed address, clear the pending record, emit
`EmailChanged(prev_email, new_email)`, and return the updated user;
`none` when no pending change matches the token. -/
def confirm_email (w : World) (key : String) : Option User × World :=
  match findPending w.store key with
  | none => (none, w)
  | some p =>
    match findUserExact w.store p.username with
    | none => (none, w)
    | some u =>
      let u2 : User := { u with email := p.proposedEmail }
      (some u2,
        { w with
          store := { w.store with
            users := saveUser w.store.users u2,
            pendings := w.store.pendings.filter (fun q => !(q.token == key)) },
          events :=
            w.events ++ [Event.emailChanged u.username u.email p.proposedEmail] })

/-- The `email_confirm` view (views.py): confirm through the manager;
on success redirect (to `success_url` or the confirm-complete page), on
failure render the fail template. -/
def email_confirm (w : World) (key : String) (successUrl : Option String) :
    Response × World :=
  match confirm_email w key with
  | (some u, w1) =>
    let url : Url :=
      match successUrl with
      | some s => Url.custom s
      | none => Url.emailConfirmComplete u.username
    (Response.redirect url, w1)
  | (none, w1) => (Response.render "userena/email_confirm_fail.html" [], w1)

/-- Persist edited profile attributes, keyed by username. -/
def saveProfile (l : List Profile) (username : String)
    (attrs : List (String × String)) : List Profile :=
  l.map (fun p => if p.username == username then { p with attrs := attrs } else p)

/-- `ProfileEditView.get_success_url` (profile.py): with a caller-set
`success_url` it sends the `profile_change` signal and returns that URL;
otherwise it returns the profile-detail URL and sends nothing. -/
def profile_edit_get_success_url (w : World) (username : String)
    (successUrl : Option String) : Url × World :=
  match successUrl with
  | some s =>
    (Url.custom s, { w with events := w.events ++ [Event.profileChanged username] })
  | none => (Url.profileDetail username, w)

/-- `ProfileEditView.form_valid` together with `UpdateView`'s redirect:
save the edited profile, then redirect to `get_success_url()`. -/
def profile_edit_form_valid (w : World) (username : String)
    (attrs : List (String × String)) (successUrl : Option String) :
    Response × World :=
  let w1 :=
    { w with store :=
        { w.store with profiles := saveProfile w.store.profiles username attrs } }
  let r := profile_edit_get_success_url w1 username successUrl
  (Response.redirect r.1, r.2)

/-- The acting (request) user together with the per-object permissions
guardian has assigned to it, as (codename, target-username) pairs. -/
structure Actor where
  username : String
  perms : List (String × String)
  deriving Repr, DecidableEq

/-- Does the actor hold the object permission `perm` on the target? -/
def hasPerm (a : Actor) (perm target : String) : Bool :=
  a.perms.contains (perm, target)

/-- Modelled from the spec: the AuthorizationGate realised by guardian's
`permission_required_or_403` decorator plus the self-permission userena
assigns at signup (both outside src/): allow iff the actor is the target
user itself or holds the elevated object permission. -/
def authGateAllows (a : Actor) (perm target : String) : Bool :=
  unameEq a.username target || hasPerm a perm target

/-- Modelled from the spec: `ChangeEmailForm.save` /
`UserenaSignup.change_email` (not shipped under src/): store a pending
email change with a fresh confirmation token, superseding any prior
pending change for the same user. -/
def request_email_change_save (w : World) (username newEmail : String) : World :=
  { w with store := { w.store with
      pendings :=
        { username := username, token := w.freshToken,
          proposedEmail := newEmail } ::
          w.store.pendings.filter (fun p => !(p.username == username)) } }

/-- The POST-with-valid-form body of the `email_change` view (views.py):
save the pending change; with a caller-set `success_url` send the
`email_change` signal (prev and new address, both read from the still
unchanged user row) and redirect there, else redirect to the
change-complete page. -/
def email_change_post (w : World) (username newEmail : String)
    (successUrl : Option String) : Response × World :=
  match findUserByName w.store username with
  | none => (Response.notFound, w)
  | some u =>
    let prevEmail := u.email
    let w1 := request_email_change_save w u.username newEmail
    match successUrl with
    | some s =>
      (Response.redirect (Url.custom s),
        { w1 with events :=
            w1.events ++ [Event.emailChanged u.username prevEmail u.email] })
    | none => (Response.redirect (Url.emailChangeComplete u.username), w1)

/-- The `email_change` view with its permission decorator: resolve the
target user (404 when absent), run the gate, only then the body. -/
def email_change_view (a : Actor) (w : World) (username newEmail : String)
    (successUrl : Option String) : Response × World :=
  match findUserByName w.store username with
  | none => (Response.notFound, w)
  | some _ =>
    if authGateAllows a "change_user" username then
      email_change_post w username newEmail successUrl
    else (Response.forbidden, w)

/-- The POST-with-valid-form body of the password-change view: save the
new credential, send `password_complete`, redirect per `success_url`. -/
def password_change_post (w : World) (username newCredential : String)
    (successUrl : Option String) : Response × World :=
  match findUserByName w.store username with
  | none => (Response.notFound, w)
  | some u =>
    let u2 : User := { u with credential := newCredential }
    let w1 :=
      { w with
        store := { w.store with users := saveUser w.store.users u2 },
        events := w.events ++ [Event.passwordChanged u.username] }
    match successUrl with
    | some s => (Response.redirect (Url.custom s), w1)
    | none => (Response.redirect (Url.passwordChangeComplete u.username), w1)

/-- `PasswordChangeView.dispatch` (password.py) with its permission
decorator: resolve the target user, run the gate, only then the body. -/
def password_change_view (a : Actor) (w : World)
    (username newCredential : String) (successUrl : Option String) :
    Response × World :=
  match findUserByName w.store username with
  | none => (Response.notFound, w)
  | some _ =>
    if authGateAllows a "change_user" username then
      password_change_post w username newCredential successUrl
    else (Response.forbidden, w)

/-- `ProfileEditView.dispatch` (profile.py) with its permission
decorator (`change_profile` on the target profile): resolve the target,
run the gate, only then the edit body. -/
def profile_edit_view (a : Actor) (w : World) (username : String)
    (attrs : List (String × String)) (successUrl : Option String) :
    Response × World :=
  match findUserByName w.store username with
  | none => (Response.notFound, w)
  | some u =>
    if authGateAllows a "change_profile" username then
      profile_edit_form_valid w u.username attrs successUrl
    else (Response.forbidden, w)

/-- `SigninView.form_valid` (signin.py), taking the user the credential
primitive authenticated: when active, log the user in, set the session
expiry from `remember_me`, and send `account_signin`; when inactive, do
nothing. -/
def signin_form_valid (cfg : Config) (w : World) (user : User)
    (rememberMe : Bool) : World :=
  if user.active then
    { w with
      session := some user.username,
      sessionExpiry := some (if rememberMe then cfg.rememberMeDays * 86400 else 0),
      events := w.events ++ [Event.signedIn user.username] }
  else w

/-- `SigninView.get_success_url` (signin.py): the signin-redirect
strategy for active users, the disabled-account view otherwise. -/
def signin_get_success_url (next : Option String) (user : User) : Url :=
  if user.active then Url.signinRedirect next user.username
  else Url.disabled user.username

/-- A valid sign-in POST: `form_valid` followed by the redirect to
`get_success_url`. -/
def signin_post_valid (cfg : Config) (w : World) (user : User)
    (rememberMe : Bool) (next : Option String) : Response × World :=
  (Response.redirect (signin_get_success_url next user),
    signin_form_valid cfg w user rememberMe)

/-- Request method, for signup dispatch. -/
inductive Method where
  | get
  | post
  deriving Repr, DecidableEq

/-- A valid signup form submission. -/
structure SignupData where
  username : String
  email : String
  password : String
  deriving Repr, DecidableEq

/-- Modelled from the spec: `SignupForm.save` /
`UserenaSignup.objects.create_user` (not shipped under src/): create the
user (active only when activation is not required) and profile, and mint
an activation record with a fresh token. -/
def create_user (cfg : Config) (w : World) (d : SignupData) : User × World :=
  let u : User :=
    { username := d.username, email := d.email,
      active := !cfg.activationRequired, credential := d.password }
  (u,
    { w with store := { w.store with
        users := w.store.users ++ [u],
        profiles := w.store.profiles ++ [{ username := d.username, attrs := [] }],
        activations := w.store.activations ++
          [{ username := d.username, token := w.freshToken, issuedAt := w.now }] } })

/-- `SignupView.form_valid` (signup.py): save the form, send
`signup_complete`, log out any previous session, and — only when
configured to sign in after signup without required activation — sign
the fresh user in by email; then redirect to the success URL. -/
def signup_form_valid (cfg : Config) (w : World) (d : SignupData) :
    Response × World :=
  let r := create_user cfg w d
  let w2 := { r.2 with events := r.2.events ++ [Event.signupComplete r.1.username] }
  let w3 := { w2 with session := none }
  let w4 :=
    if cfg.signinAfterSignup && !cfg.activationRequired then
      loginByEmail w3 r.1.email
    else w3
  (Response.redirect (Url.signupCompleteView r.1.username), w4)

/-- `SignupView.dispatch` (signup.py): with `USERENA_DISABLE_SIGNUP`
set, raise `PermissionDenied` before any other processing; otherwise
GET renders the form and a POST is processed by the form. -/
def signup_view (cfg : Config) (w : World) (m : Method)
    (d : Option SignupData) : Response × World :=
  if cfg.disableSignup then (Response.forbidden, w)
  else
    match m, d with
    | Method.get, _ => (Response.render "userena/signup_form.html" [], w)
    | Method.post, some data => signup_form_valid cfg w data
    | Method.post, none => (Response.render "userena/signup_form.html" [], w)

/-! Helper lemmas about the list-backed store operations. -/

/-- Searching for `p` after keeping only the elements violating `p`
finds nothing: a record deleted by token can no longer be found. -/
theorem find?_filter_not {α : Type} (l : List α) (p : α → Bool) :
    (l.filter (fun a => !(p a))).find? p = none := by
  apply List.find?_eq_none.mpr
  intro x hx
  have hmem := List.mem_filter.mp hx
  simpa using hmem.2

/-- Unfolding equation for `saveUser` on a cons cell. -/
theorem saveUser_cons (v : User) (t : List User) (u2 : User) :
    saveUser (v :: t) u2 =
      (if v.username == u2.username then u2 else v) :: saveUser t u2 := rfl

/-- After saving a row `u2` that keeps the username of the row `u` a
username search found, the same search finds the saved row. -/
theorem find?_saveUser_username (l : List User) (n : String) (u u2 : User)
    (h : l.find? (fun v => v.username == n) = some u)
    (hname : u2.username = u.username) :
    (saveUser l u2).find? (fun v => v.username == n) = some u2 := by
  induction l with
  | nil => simp at h
  | cons v t ih =>
    rw [saveUser_cons]
    cases hv : (v.username == n) with
    | true =>
      have hvu : v = u := by simpa [List.find?_cons, hv] using h
      have hkey : (v.username == u2.username) = true := by
        rw [hvu, hname]
        simp
      rw [if_pos hkey]
      have hp2 : (u2.username == n) = true := by
        rw [hname, ← hvu]
        exact hv
      simp [List.find?_cons, hp2]
    | false =>
      have h2 : t.find? (fun x => x.username == n) = some u := by
        simpa [List.find?_cons, hv] using h
      have hpu := List.find?_some h2
      cases hkey : (v.username == u2.username) with
      | true =>
        rw [if_pos rfl]
        have hp2 : (u2.username == n) = true := by
          rw [hname]
          exact hpu
        simp [List.find?_cons, hp2]
      | false =>
        rw [if_neg (by simp)]
        have htail := ih h2
        simp [List.find?_cons, hv, htail]

/-- After saving `u2` (same email, same username as `u`) into a list in
which `u` is the only row carrying that email, an email search finds the
saved row: the backend's by-email lookup resolves the just-saved user. -/
theorem find?_saveUser_email (l : List User) (u u2 : User)
    (hf : l.filter (fun v => v.email == u.email) = [u])
    (hemail : u2.email = u.email)
    (hname : u2.username = u.username) :
    (saveUser l u2).find? (fun v => v.email == u.email) = some u2 := by
  induction l with
  | nil => simp at hf
  | cons v t ih =>
    rw [saveUser_cons]
    cases hv : (v.email == u.email) with
    | true =>
      have hf2 : v = u ∧ t.filter (fun x => x.email == u.email) = [] := by
        simpa [List.filter_cons, hv] using hf
      have hkey : (v.username == u2.username) = true := by
        rw [hf2.1, hname]
        simp
      rw [if_pos hkey]
      have hp2 : (u2.email == u.email) = true := by simp [hemail]
      simp [List.find?_cons, hp2]
    | false =>
      have hf2 : t.filter (fun x => x.email == u.email) = [u] := by
        simpa [List.filter_cons, hv] using hf
      cases hkey : (v.username == u2.username) with
      | true =>
        rw [if_pos rfl]
        have hp2 : (u2.email == u.email) = true := by simp [hemail]
        simp [List.find?_cons, hp2]
      | false =>
        rw [if_neg (by simp)]
        have htail := ih hf2
        simp [List.find?_cons, hv, htail]

/-- Signing in by email touches only the session and the recorded
backend calls, never the store. -/
theorem loginByEmail_store (w : World) (e : String) :
    (loginByEmail w e).store = w.store := by
  cases h : authenticate_by_email w.store e <;> simp [loginByEmail, h]

/-- Signing in by email sends no signal. -/
theorem loginByEmail_events (w : World) (e : String) :
    (loginByEmail w e).events = w.events := by
  cases h : authenticate_by_email w.store e <;> simp [loginByEmail, h]

/-- When the backend resolves the email, the session is bound to the
resolved user. -/
theorem loginByEmail_session_of_find (w : World) (e : String) (au : User)
    (h : authenticate_by_email w.store e = some au) :
    (loginByEmail w e).session = some au.username := by
  simp [loginByEmail, h]

/-- `loginByEmail` always records the password-bypassing backend call. -/
theorem loginByEmail_authCalls (w : World) (e : String) :
    AuthCall.byEmailNoPassword e ∈ (loginByEmail w e).authCalls := by
  cases h : authenticate_by_email w.store e <;> simp [loginByEmail, h]

/-- On the success branch — record found, linked user found, and the
key unexpired or retry disabled — `activate` activates the user, clears
the record, emits `Activated`, signs the user in by email and
redirects. -/
theorem activate_success_eq
    (cfg : Config) (w : World) (key : String) (su : Option String)
    (r : ActivationRecord) (u : User)
    (hrec : findActivation w.store key = some r)
    (huser : findUserExact w.store r.username = some u)
    (hcond : (!(isExpired cfg w.now r.issuedAt) || !cfg.activationRetry) = true) :
    activate cfg w key su =
      (Response.redirect
          (match su with
            | some s => Url.custom (substUsername s u.username)
            | none => Url.profileDetail u.username),
        loginByEmail
          { w with
            store := { w.store with
              users := saveUser w.store.users { u with active := true },
              activations :=
                w.store.activations.filter (fun a => !(a.token == key)) },
            events := w.events ++ [Event.activated u.username] }
          u.email) := by
  have hcheck : check_expired_activation cfg w key =
      some (isExpired cfg w.now r.issuedAt) := by
    simp [check_expired_activation, hrec]
  have hact : activate_user w key =
      (some ({ u with active := true } : User),
        { w with
          store := { w.store with
            users := saveUser w.store.users { u with active := true },
            activations :=
              w.store.activations.filter (fun a => !(a.token == key)) },
          events := w.events ++ [Event.activated u.username] }) := by
    simp [activate_user, hrec, huser]
  simp [activate, hcheck, hcond, hact]

/-! Concrete sample data used by the witness theorems. -/

/-- A sample unverified user. -/
def userAlice : User :=
  { username := "alice", email := "alice@example.com", active := false,
    credential := "pw" }

/-- A sample active user. -/
def userCarol : User :=
  { username := "carol", email := "carol@example.com", active := true,
    credential := "pw2" }

/-- A sample activation record for `userAlice`. -/
def recAlice : ActivationRecord :=
  { username := "alice", token := "key1", issuedAt := 0 }

/-- A sample pending email change for `userAlice`. -/
def pendAlice : PendingEmailChange :=
  { username := "alice", token := "conf1", proposedEmail := "new@example.com" }

/-- A sample store holding the records above. -/
def storeA : Store :=
  { users := [userAlice, userCarol], activations := [recAlice],
    pendings := [pendAlice],
    profiles := [{ username := "alice", attrs := [] }] }

/-- A sample world; at `now = 100` the activation record is well past a
window of 10. -/
def worldA : World :=
  { store := storeA, events := [], session := none, sessionExpiry := none,
    authCalls := [], now := 100, freshToken := "key2" }

/-- Sample configuration with activation retry disabled. -/
def cfgRetryOff : Config :=
  { activationRetry := false, activationWindow := 10, useMessages := false,
    rememberMeDays := 14, disableSignup := false, signinAfterSignup := false,
    activationRequired := true }

/-- Sample configuration with activation retry enabled. -/
def cfgRetryOn : Config := { cfgRetryOff with activationRetry := true }

/-- Sample configuration with signup disabled. -/
def cfgNoSignup : Config := { cfgRetryOff with disableSignup := true }

/-- A sample actor with no elevated permissions. -/
def actorBob : Actor := { username := "bob", perms := [] }

/-! The claims. -/

/-- C1: for every activation token matching an existing activation
record, with `USERENA_ACTIVATION_RETRY` disabled, `activate` honors the
token regardless of its age: the user's active flag is set, the record
is cleared, `Activated` is emitted, and the caller is redirected — no
expiry hypothesis is needed. -/
theorem activate_honors_token_when_retry_disabled
    (cfg : Config) (w : World) (key : String) (su : Option String)
    (r : ActivationRecord) (u : User)
    (hretry : cfg.activationRetry = false)
    (hrec : findActivation w.store key = some r)
    (huser : findUserExact w.store r.username = some u) :
    findActivation ((activate cfg w key su).2).store key = none ∧
      findUserExact ((activate cfg w key su).2).store r.username =
        some { u with active := true } ∧
      Event.activated u.username ∈ ((activate cfg w key su).2).events ∧
      ∃ url, (activate cfg w key su).1 = Response.redirect url := by
  have hcond :
      (!(isExpired cfg w.now r.issuedAt) || !cfg.activationRetry) = true := by
    simp [hretry]
  rw [activate_success_eq cfg w key su r u hrec huser hcond]
  refine ⟨?_, ?_, ?_, ⟨_, rfl⟩⟩
  · rw [loginByEmail_store]
    exact find?_filter_not w.store.activations (fun a => a.token == key)
  · rw [loginByEmail_store]
    exact find?_saveUser_username w.store.users r.username u _ huser rfl
  · rw [loginByEmail_events]
    simp

/-- Witness for C1: the expired token `key1` (issued at 0, window 10,
now 100) is still honored with retry disabled. -/
theorem activate_honors_token_when_retry_disabled_witness :
    findActivation ((activate cfgRetryOff worldA "key1" none).2).store "key1" =
        none ∧
      findUserExact ((activate cfgRetryOff worldA "key1" none).2).store
          recAlice.username = some { userAlice with active := true } ∧
      Event.activated userAlice.username ∈
        ((activate cfgRetryOff worldA "key1" none).2).events ∧
      ∃ url, (activate cfgRetryOff worldA "key1" none).1 =
        Response.redirect url :=
  activate_honors_token_when_retry_disabled cfgRetryOff worldA "key1" none
    recAlice userAlice rfl (by decide) (by decide)

/-- C2: for every activation token matching an existing record and
older than the activation window, with retry enabled, `activate`
returns the retryable expired outcome (the retry template, carrying the
key) and leaves the whole world — in particular the record —
unchanged. -/
theorem activate_expired_with_retry_is_retryable
    (cfg : Config) (w : World) (key : String) (su : Option String)
    (r : ActivationRecord)
    (hretry : cfg.activationRetry = true)
    (hrec : findActivation w.store key = some r)
    (hexp : cfg.activationWindow < w.now - r.issuedAt) :
    activate cfg w key su =
      (Response.render "userena/activate_retry.html"
        [("activation_key", key)], w) := by
  have hexpb : isExpired cfg w.now r.issuedAt = true := by
    simp [isExpired, hexp]
  simp [activate, check_expired_activation, hrec, hexpb, hretry]

/-- Witness for C2 on the concrete expired record. -/
theorem activate_expired_with_retry_is_retryable_witness :
    activate cfgRetryOn worldA "key1" none =
      (Response.render "userena/activate_retry.html"
        [("activation_key", "key1")], worldA) :=
  activate_expired_with_retry_is_retryable cfgRetryOn worldA "key1" none
    recAlice rfl (by decide) (by decide)

/-- C3: for every confirmation token matching a pending email change
(with a linked user), `email_confirm` applies the proposed email to the
user, clears the pending record, emits
`EmailChanged(prev_email, new_email)`, the manager returns the updated
user, and the caller is redirected. -/
theorem email_confirm_applies_pending_change
    (w : World) (key : String) (su : Option String)
    (p : PendingEmailChange) (u : User)
    (hp : findPending w.store key = some p)
    (hu : findUserExact w.store p.username = some u) :
    (confirm_email w key).1 = some { u with email := p.proposedEmail } ∧
      findUserExact ((email_confirm w key su).2).store p.username =
        some { u with email := p.proposedEmail } ∧
      findPending ((email_confirm w key su).2).store key = none ∧
      Event.emailChanged u.username u.email p.proposedEmail ∈
        ((email_confirm w key su).2).events ∧
      ∃ url, (email_confirm w key su).1 = Response.redirect url := by
  have hstep : confirm_email w key =
      (some ({ u with email := p.proposedEmail } : User),
        { w with
          store := { w.store with
            users := saveUser w.store.users { u with email := p.proposedEmail },
            pendings := w.store.pendings.filter (fun q => !(q.token == key)) },
          events := w.events ++
            [Event.emailChanged u.username u.email p.proposedEmail] }) := by
    simp [confirm_email, hp, hu]
  have hview : email_confirm w key su =
      (Response.redirect
          (match su with
            | some s => Url.custom s
            | none => Url.emailConfirmComplete u.username),
        { w with
          store := { w.store with
            users := saveUser w.store.users { u with email := p.proposedEmail },
            pendings := w.store.pendings.filter (fun q => !(q.token == key)) },
          events := w.events ++
            [Event.emailChanged u.username u.email p.proposedEmail] }) := by
    simp only [email_confirm, hstep]
  rw [hstep, hview]
  refine ⟨rfl, ?_, ?_, ?_, ⟨_, rfl⟩⟩
  · exact find?_saveUser_username w.store.users p.username u _ hu rfl
  · exact find?_filter_not w.store.pendings (fun q => q.token == key)
  · simp

/-- Witness for C3 on the concrete pending change. -/
theorem email_confirm_applies_pending_change_witness :
    (confirm_email worldA "conf1").1 =
        some { userAlice with email := pendAlice.proposedEmail } ∧
      findUserExact ((email_confirm worldA "conf1" none).2).store
          pendAlice.username =
        some { userAlice with email := pendAlice.proposedEmail } ∧
      findPending ((email_confirm worldA "conf1" none).2).store "conf1" =
        none ∧
      Event.emailChanged userAlice.username userAlice.email
          pendAlice.proposedEmail ∈
        ((email_confirm worldA "conf1" none).2).events ∧
      ∃ url, (email_confirm worldA "conf1" none).1 = Response.redirect url :=
  email_confirm_applies_pending_change worldA "conf1" none pendAlice userAlice
    (by decide) (by decide)

/-- C4: a successful profile edit sends `ProfileChanged` exactly when
the caller supplied an explicit `success_url`; with the default
profile-detail redirect no signal is sent. -/
theorem profile_edit_emits_iff_custom_success_url
    (w : World) (username : String) (attrs : List (String × String))
    (successUrl : Option String) :
    ((profile_edit_form_valid w username attrs successUrl).2).events =
        w.events ++
          (match successUrl with
            | some _ => [Event.profileChanged username]
            | none => []) ∧
      (profile_edit_form_valid w username attrs successUrl).1 =
        Response.redirect
          (match successUrl with
            | some s => Url.custom s
            | none => Url.profileDetail username) := by
  cases successUrl <;>
    simp [profile_edit_form_valid, profile_edit_get_success_url]

/-- C5: for each of the email-change, password-change and profile-edit
views, an actor who is not the target user and holds no elevated change
permission on the target is answered with Forbidden and the world is
untouched — never a redirect. -/
theorem mutating_views_denied_without_permission
    (a : Actor) (w : World) (username newEmail newCredential : String)
    (attrs : List (String × String)) (su : Option String) (tu : User)
    (htarget : findUserByName w.store username = some tu)
    (hself : unameEq a.username username = false)
    (hpermUser : hasPerm a "change_user" username = false)
    (hpermProfile : hasPerm a "change_profile" username = false) :
    email_change_view a w username newEmail su = (Response.forbidden, w) ∧
      password_change_view a w username newCredential su =
        (Response.forbidden, w) ∧
      profile_edit_view a w username attrs su = (Response.forbidden, w) := by
  refine ⟨?_, ?_, ?_⟩ <;>
    simp [email_change_view, password_change_view, profile_edit_view,
      htarget, authGateAllows, hself, hpermUser, hpermProfile]

/-- Witness for C5: `bob`, holding no permissions, is denied all three
operations on `alice`. -/
theorem mutating_views_denied_without_permission_witness :
    email_change_view actorBob worldA "alice" "x@example.com" none =
        (Response.forbidden, worldA) ∧
      password_change_view actorBob worldA "alice" "newpw" none =
        (Response.forbidden, worldA) ∧
      profile_edit_view actorBob worldA "alice" [] none =
        (Response.forbidden, worldA) :=
  mutating_views_denied_without_permission actorBob worldA "alice"
    "x@example.com" "newpw" [] none userAlice (by decide) (by decide)
    (by decide) (by decide)

/-- C6: when the authenticated user's active flag is false, a valid
sign-in POST changes nothing — no session, no expiry, no `SignedIn`
signal — and redirects to the disabled-account view. -/
theorem signin_inactive_redirects_to_disabled
    (cfg : Config) (w : World) (user : User) (rememberMe : Bool)
    (next : Option String)
    (hinactive : user.active = false) :
    signin_post_valid cfg w user rememberMe next =
      (Response.redirect (Url.disabled user.username), w) := by
  simp [signin_post_valid, signin_form_valid, signin_get_success_url,
    hinactive]

/-- Witness for C6 with the inactive `userAlice`. -/
theorem signin_inactive_redirects_to_disabled_witness :
    signin_post_valid cfgRetryOff worldA userAlice true none =
      (Response.redirect (Url.disabled userAlice.username), worldA) :=
  signin_inactive_redirects_to_disabled cfgRetryOff worldA userAlice true
    none rfl

/-- C7: a successful sign-in of an active user sets the session expiry
to `remember-me-days * 86400` seconds when remember-me is chosen and to
zero (end of browser session) otherwise, and binds the session to the
user. -/
theorem signin_active_sets_expiry
    (cfg : Config) (w : World) (user : User) (rememberMe : Bool)
    (next : Option String)
    (hactive : user.active = true) :
    ((signin_post_valid cfg w user rememberMe next).2).sessionExpiry =
        some (if rememberMe then cfg.rememberMeDays * 86400 else 0) ∧
      ((signin_post_valid cfg w user rememberMe next).2).session =
        some user.username := by
  simp [signin_post_valid, signin_form_valid, hactive]

/-- Witness for C7 with the active `userCarol` and remember-me set. -/
theorem signin_active_sets_expiry_witness :
    ((signin_post_valid cfgRetryOff worldA userCarol true none).2).sessionExpiry =
        some (if true then cfgRetryOff.rememberMeDays * 86400 else 0) ∧
      ((signin_post_valid cfgRetryOff worldA userCarol true none).2).session =
        some userCarol.username :=
  signin_active_sets_expiry cfgRetryOff worldA userCarol true none rfl

/-- C8: with the activation-retry flag disabled, `activate_retry` fails
closed for every token: the world is unchanged — no new token, no
record change — and the caller is redirected to the `activate` view's
error path. -/
theorem activate_retry_fails_closed_when_retry_disabled
    (cfg : Config) (w : World) (key : String)
    (hretry : cfg.activationRetry = false) :
    activate_retry cfg w key =
      (Response.redirect (Url.activateView key), w) := by
  simp [activate_retry, hretry]

/-- Witness for C8 on the concrete world. -/
theorem activate_retry_fails_closed_when_retry_disabled_witness :
    activate_retry cfgRetryOff worldA "key1" =
      (Response.redirect (Url.activateView "key1"), worldA) :=
  activate_retry_fails_closed_when_retry_disabled cfgRetryOff worldA "key1"
    rfl

/-- C9: every successful `activate` also signs the user in: the view
calls the backend with the user's email and the password check
bypassed, the session ends bound to the activated user, and the caller
is redirected.  The user is assumed to be the sole owner of their email
(the data model's email-uniqueness invariant). -/
theorem activate_signs_activated_user_in
    (cfg : Config) (w : World) (key : String) (su : Option String)
    (r : ActivationRecord) (u : User)
    (hrec : findActivation w.store key = some r)
    (huser : findUserExact w.store r.username = some u)
    (hbranch : isExpired cfg w.now r.issuedAt = false ∨
      cfg.activationRetry = false)
    (huniq : w.store.users.filter (fun v => v.email == u.email) = [u]) :
    ((activate cfg w key su).2).session = some u.username ∧
      AuthCall.byEmailNoPassword u.email ∈
        ((activate cfg w key su).2).authCalls ∧
      ∃ url, (activate cfg w key su).1 = Response.redirect url := by
  have hcond :
      (!(isExpired cfg w.now r.issuedAt) || !cfg.activationRetry) = true := by
    cases hbranch with
    | inl h => simp [h]
    | inr h => simp [h]
  rw [activate_success_eq cfg w key su r u hrec huser hcond]
  refine ⟨?_, loginByEmail_authCalls _ _, ⟨_, rfl⟩⟩
  have hauth :=
    find?_saveUser_email w.store.users u { u with active := true } huniq rfl rfl
  exact loginByEmail_session_of_find
    { w with
      store := { w.store with
        users := saveUser w.store.users { u with active := true },
        activations :=
          w.store.activations.filter (fun a => !(a.token == key)) },
      events := w.events ++ [Event.activated u.username] }
    u.email { u with active := true } hauth

/-- Witness for C9 on the concrete world (retry disabled branch). -/
theorem activate_signs_activated_user_in_witness :
    ((activate cfgRetryOff worldA "key1" none).2).session =
        some userAlice.username ∧
      AuthCall.byEmailNoPassword userAlice.email ∈
        ((activate cfgRetryOff worldA "key1" none).2).authCalls ∧
      ∃ url, (activate cfgRetryOff worldA "key1" none).1 =
        Response.redirect url :=
  activate_signs_activated_user_in cfgRetryOff worldA "key1" none recAlice
    userAlice (by decide) (by decide) (Or.inr rfl) (by decide)

/-- C10: with `USERENA_DISABLE_SIGNUP` set, the signup view answers
Forbidden at dispatch for every method and form payload, touching
nothing. -/
theorem signup_forbidden_when_disabled
    (cfg : Config) (w : World) (m : Method) (d : Option SignupData)
    (hdis : cfg.disableSignup = true) :
    signup_view cfg w m d = (Response.forbidden, w) := by
  simp [signup_view, hdis]

/-- Witness for C10 on a concrete POST with a valid payload. -/
theorem signup_forbidden_when_disabled_witness :
    signup_view cfgNoSignup worldA Method.post
        (some { username := "dave", email := "dave@example.com",
                password := "pw3" }) =
      (Response.forbidden, worldA) :=
  signup_forbidden_when_disabled cfgNoSignup worldA Method.post
    (some { username := "dave", email := "dave@example.com",
            password := "pw3" }) rfl

end Userena
